import Mathlib

/-!
Verification of the EQcorrscan match-filter core and despiker against its
natural-language specification.

The development shallowly embeds the two source modules:
  * `core/match_filter.py` : `DETECTION`, `normxcorr2`, `_template_loop_dev`,
    `_channel_loop_dev`, `match_filter`;
  * `eqcorrscan/utils/despike.py` : `median_filter`, `_median_window`,
    `_interp_gap`, `template_remove`.

Samples are modelled as rationals (`ℚ`); the floating-point `NaN` sentinel that
the match-filter engine uses for "no matching channel" is modelled as `none` in
`Option ℚ`.  External collaborators that the source merely calls — the openCV
correlation kernel (`cv2.matchTemplate`), the peak finders from
`utils.findpeaks`, and the obspy filtering used by the despiker — are
parameters of the embedded functions, constrained only where the specification
states their contracts.
-/

/-- Floor of a rational, computably: for a positive denominator, euclidean
division of the numerator by the denominator is the floor. -/
def ratFloor (q : ℚ) : ℤ := q.num / (q.den : ℤ)

/-- Python 2 `round` (half away from zero), composed with `int(...)`:
`int(round(x))` as it appears in `_template_loop_dev`. -/
def pyRound (q : ℚ) : ℤ :=
  if 0 ≤ q then ratFloor (q + 1/2) else -(ratFloor (1/2 - q))

/-- Python `int(...)` applied to a float: truncation toward zero. -/
def pyInt (q : ℚ) : ℤ := Int.tdiv q.num (q.den : ℤ)

/-- `np.median`: sort ascending, take the middle element (odd length) or the
mean of the two middle elements (even length).  `np.median` of an empty array
is `NaN`; the embedding returns `0` there, a case no claim reaches. -/
def npMedian (l : List ℚ) : ℚ :=
  let s := l.insertionSort (· ≤ ·)
  let n := l.length
  if n = 0 then 0
  else if n % 2 = 1 then s.getD (n / 2) 0
  else (s.getD (n / 2 - 1) 0 + s.getD (n / 2) 0) / 2

/-- `np.mean`: arithmetic mean (`NaN` on empty input, modelled as `0`). -/
def npMean (l : List ℚ) : ℚ := l.sum / (l.length : ℚ)

/-- Python `max` over a 1-D numeric array (errors on an empty array; the
embedding returns `0` there, a case guarded out by the callers). -/
def pyMax (l : List ℚ) : ℚ := (l.max?).getD 0

/-- `np.linspace a b num`: `num` evenly spaced values from `a` to `b`,
endpoints included. -/
def npLinspace (a b : ℚ) (num : ℕ) : List ℚ :=
  if num = 0 then []
  else if num = 1 then [a]
  else (List.range num).map (fun k : ℕ => a + (k : ℚ) * (b - a) / ((num : ℚ) - 1))

/-- Header information of an obspy trace, restricted to the fields the two
modules read: station id, channel id, sampling rate (Hz) and absolute start
time (seconds). -/
structure Stats where
  station : String
  channel : String
  sampling_rate : ℚ
  starttime : ℚ
deriving DecidableEq, Repr

def defaultStats : Stats := ⟨"", "", 0, 0⟩

instance : Inhabited Stats := ⟨defaultStats⟩

/-- An obspy trace: header plus sample buffer.  obspy keeps `stats.npts`
equal to `len(data)`, so the daylong check reads `data.length` here. -/
structure Trace where
  stats : Stats
  data : List ℚ
deriving DecidableEq, Repr

def defaultTrace : Trace := ⟨defaultStats, []⟩

instance : Inhabited Trace := ⟨defaultTrace⟩

/-- numpy dtypes distinguished by `normxcorr2`'s `astype` coercion. -/
inductive Dtype
  | float32
  | float64
deriving DecidableEq, Repr

/-- A Python value handed to `normxcorr2`: either a numpy array (dtype tag and
numeric contents; the value change of a float64→float32 cast is not modelled,
only the dtype) or any other Python object (`type(x) != np.ndarray`). -/
inductive NpVal
  | ndarray (dtype : Dtype) (data : List ℚ)
  | pyOther
deriving DecidableEq, Repr

/-- Result of `normxcorr2`: the string sentinel `'NaN'` on a type-check
failure, or the correlation array (the `(1, L)` reshape is modelled as the
row itself). -/
inductive PyResult
  | strval (s : String)
  | arr (v : List ℚ)
deriving DecidableEq, Repr

def pyResultArr : PyResult → List ℚ
  | .strval _ => []
  | .arr v => v

/-- The external correlation kernel `cv2.matchTemplate(image, template,
TM_CCOEFF_NORMED)`: it receives the image (dtype and data) first and the
template second, exactly as at the call site in `normxcorr2`. -/
abbrev Kernel := Dtype → List ℚ → Dtype → List ℚ → List ℚ

/-- `normxcorr2(template, image)`: reject non-`np.ndarray` inputs with the
string sentinel `'NaN'`; otherwise cast both to float32 and call the openCV
kernel as `matchTemplate(cv_image, cv_template)`. -/
def normxcorr2 (kernel : Kernel) (template image : NpVal) : PyResult :=
  match template, image with
  | NpVal.ndarray _ tdata, NpVal.ndarray _ idata =>
      PyResult.arr (kernel Dtype.float32 idata Dtype.float32 tdata)
  | _, _ => PyResult.strval "NaN"

/-- The channel aligner from `_template_loop_dev`:
`pad = np.array([0]*int(round(delay*sampling_rate)))` and
`image = np.append(chan.data, pad)[len(pad):]`.  A negative rounded delay
makes `[0]*p` the empty list in Python, hence the `Int.toNat` clamp. -/
def alignChannel (chanData : List ℚ) (delay : ℚ) (sampling_rate : ℚ) : List ℚ :=
  let p := (pyRound (delay * sampling_rate)).toNat
  (chanData ++ List.replicate p 0).drop p

/-- `_template_loop_dev(template, chan, delays)`: start from an all-`NaN`
default row of length `len(chan.data) - len(template[0].data) + 1` (an
out-of-range index on an empty template would raise in Python; `headI`
defaults it) and, for every template channel whose station and channel match
the stream channel, replace the row by the correlation of that template
channel against the delay-aligned image. -/
def _template_loop_dev (kernel : Kernel) (template : List Trace) (chan : Trace)
    (delays : List ℚ) : List (Option ℚ) :=
  let init : List (Option ℚ) :=
    List.replicate (chan.data.length + 1 - (template.headI).data.length) none
  (List.range template.length).foldl (fun ccc i =>
    let ti := template.getD i defaultTrace
    if ti.stats.station = chan.stats.station ∧ ti.stats.channel = chan.stats.channel then
      let image := alignChannel chan.data (delays.getD i 0) chan.stats.sampling_rate
      (pyResultArr (normxcorr2 kernel (NpVal.ndarray Dtype.float64 ti.data)
        (NpVal.ndarray Dtype.float64 image))).map some
    else ccc) init

/-- One stream-channel step of `_channel_loop_dev`: compute the per-template
correlation rows for this channel (the serial and the joblib-parallel branch
both produce them in template order), then for each template either count the
channel (`no_chans[i] += 1`) when its row is not entirely `NaN`, or convert
the all-`NaN` row to zeros (`np.nan_to_num`); finally add the row used into
the running per-template sum (`cccsum = np.sum(cccs_matrix[:,[i]], axis=0)`). -/
def channelStep (kernel : Kernel) (templates : List (List Trace))
    (delays : List (List ℚ)) (acc : List (List ℚ) × List ℕ) (tr : Trace) :
    List (List ℚ) × List ℕ :=
  let rows := (List.range templates.length).map (fun i =>
    _template_loop_dev kernel (templates.getD i []) tr (delays.getD i []))
  let upd := (List.range templates.length).map (fun i =>
    let row := rows.getD i []
    let m0 := acc.1.getD i []
    if row.any Option.isSome then
      (List.zipWith (· + ·) m0 (row.map (fun x => x.getD 0)), acc.2.getD i 0 + 1)
    else
      (List.zipWith (· + ·) m0 (List.replicate row.length 0), acc.2.getD i 0))
  (upd.map Prod.fst, upd.map Prod.snd)

/-- `_channel_loop_dev(templates, delays, stream)`: per-template correlation
sums (the `cccs_matrix[0]` accumulator, initialised to zeros of length
`len(stream[0].data) - len(templates[0][0].data) + 1`) and the per-template
channel counts, folded over the stream channels. -/
def _channel_loop_dev (kernel : Kernel) (templates : List (List Trace))
    (delays : List (List ℚ)) (stream : List Trace) :
    List (List ℚ) × List ℕ :=
  let L0 := (stream.headI).data.length + 1 - ((templates.headI).headI).data.length
  stream.foldl (channelStep kernel templates delays)
    (List.replicate templates.length (List.replicate L0 (0:ℚ)),
     List.replicate templates.length (0:ℕ))

/-- A raw detection threshold: a scalar in the three live branches, or the
array `threshold*(cccsum/len(template))` that the dead `av_chan_corr` branch
would build. -/
inductive RawThresh
  | scalar (q : ℚ)
  | vector (v : List ℚ)
deriving DecidableEq, Repr

/-- Python 2 `==` between a float and a str compares values of different
types and is always `False` (source line `elif threshold=='av_chan_corr':`,
where `threshold` is the numeric multiplier). -/
def pyFloatEqStr (_x : ℚ) (_s : String) : Bool := false

/-- The threshold dispatch of `match_filter` (lines 367-375): `MAD` and
`absolute` test `threshold_type`, the third branch tests the numeric
`threshold` against the string `'av_chan_corr'`, and the fallback computes
`threshold*np.mean(np.abs(cccsum))` and prints a warning (returned as the
Boolean component). -/
def computeRawthresh (threshold_type : String) (threshold : ℚ)
    (cccsum : List ℚ) (template_len : ℕ) : RawThresh × Bool :=
  if threshold_type = "MAD" then
    (RawThresh.scalar (threshold * npMedian (cccsum.map (fun x => |x|))), false)
  else if threshold_type = "absolute" then
    (RawThresh.scalar threshold, false)
  else if pyFloatEqStr threshold "av_chan_corr" then
    (RawThresh.vector (cccsum.map (fun c => threshold * (c / (template_len : ℚ)))), false)
  else
    (RawThresh.scalar (threshold * npMean (cccsum.map (fun x => |x|))), true)

/-- The `DETECTION` record (the class-level `detectioncount` instance counter
is not part of the record contract and is not modelled).  `match_filter`
constructs it positionally as `DETECTION(template_name, detect_time,
no_chans, detect_val, threshold, 'corr')`, leaving the keyword argument
`chans` at its default `None`. -/
structure DETECTION where
  template_name : String
  detect_time : ℚ
  no_chans : ℕ
  chans : Option (List String)
  detect_val : ℚ
  threshold : ℚ
  typeofdet : String
deriving DecidableEq, Repr

/-- The peak finder `utils.findpeaks.find_peaks2` (its module is an external
collaborator of this core): from a correlation-sum trace, a raw threshold and
a minimum separation in samples it returns `(value, sample-index)` pairs. -/
abbrev FindPeaks := List ℚ → ℚ → ℚ → List (ℚ × ℕ)

/-- `match_filter(template_names, templates, delays, stream, threshold,
threshold_type, trig_int, plotvar)`: validate the daylong contract, run
`_channel_loop_dev`, reject a zero-length correlation sum, then per template
compute the raw threshold, run the peak finder when `max(cccsum)` exceeds it
(`peaks=False`, i.e. no detections, otherwise), and build one `DETECTION`
per surviving peak.  Plotting (`plotvar`) only touches deep copies and does
not influence the result; the dead `vector` threshold branch would raise in
Python on `max(cccsum) > rawthresh` (see `computeRawthresh_scalar`). -/
def match_filter (kernel : Kernel) (findPeaks : FindPeaks)
    (template_names : List String) (templates : List (List Trace))
    (delays : List (List ℚ)) (stream : List Trace)
    (threshold : ℚ) (threshold_type : String) (trig_int : ℚ)
    (_plotvar : Bool) : Except String (List DETECTION) :=
  if ¬ stream.all (fun tr => tr.stats.sampling_rate * 86400 = (tr.data.length : ℚ)) then
    Except.error "Data are not daylong"
  else
    let cn := _channel_loop_dev kernel templates delays stream
    if (cn.1.headI).length = 0 then
      Except.error "Correlation has not run, zero length cccsum"
    else
      let sr := (stream.headI).stats.sampling_rate
      Except.ok ((List.range cn.1.length).flatMap (fun i =>
        let cccsum := cn.1.getD i []
        let template := templates.getD i []
        match (computeRawthresh threshold_type threshold cccsum template.length).1 with
        | RawThresh.vector _ => []
        | RawThresh.scalar rawthresh =>
          let peaks := if pyMax cccsum > rawthresh then
              findPeaks cccsum rawthresh (trig_int * sr) else []
          peaks.map (fun peak =>
            { template_name := template_names.getD i ""
              detect_time := (stream.headI).stats.starttime + (peak.2 : ℚ) / sr
              no_chans := cn.2.getD i 0
              chans := none
              detect_val := peak.1
              threshold := rawthresh
              typeofdet := "corr" })))

/-- `find_peaks2_short` from `utils.findpeaks` (external collaborator),
as called by `_median_window` with `(arr, thresh, trig_int)`. -/
abbrev FindPeaksShort := List ℚ → ℚ → ℚ → List (ℚ × ℕ)

/-- `_median_window(window, window_start, multiplier, ...)` from the despiker
(the `starttime`, `sampling_rate` and `debug` arguments only feed debug
plotting): `MAD = np.median(np.abs(window))`, `thresh = multiplier*MAD`, find
peaks above `thresh` with `trig_int=5`, and shift each peak index by the
window start. -/
def _median_window (fp : FindPeaksShort) (window : List ℚ) (window_start : ℕ)
    (multiplier : ℚ) : List (ℚ × ℕ) :=
  let MAD := npMedian (window.map (fun x => |x|))
  let thresh := multiplier * MAD
  (fp window thresh 5).map (fun p => (p.1, p.2 + window_start))

/-- `_interp_gap(data, peak_loc, interp_len)`: clamp
`[peak_loc - int(0.5*interp_len), peak_loc + int(0.5*interp_len))` to
`[0, len(data)-1]` and overwrite that slice with
`np.linspace(data[start_loc], data[end_loc], end_loc - start_loc)`.
`Nat` subtraction performs the same clamps as the two Python `if`s (for an
empty `data` Python would raise on `data[end_loc]`; no claim reaches it). -/
def _interp_gap (data : List ℚ) (peak_loc : ℕ) (interp_len : ℕ) : List ℚ :=
  let start_loc := peak_loc - interp_len / 2
  let end_loc := min (peak_loc + interp_len / 2) (data.length - 1)
  let fill := npLinspace (data.getD start_loc 0) (data.getD end_loc 0)
    (end_loc - start_loc)
  data.take start_loc ++ fill ++ data.drop end_loc

/-- `median_filter(tr, multiplier, windowlength, interp_len)`: find spikes in
a detrended band-pass-filtered copy of the trace (`filt`, the external obspy
filtering), window by window (`_median_window`, chunk boundaries at multiples
of `int(windowlength*sampling_rate)`, pool results collected in chunk order),
then interpolate every flagged location in place on the original, unfiltered
`tr.data`. -/
def median_filter (filt : List ℚ → List ℚ) (fp : FindPeaksShort) (tr : Trace)
    (multiplier : ℚ) (windowlength : ℚ) (interp_len : ℚ) : Trace :=
  let data := filt tr.data
  let wl := (pyInt (windowlength * tr.stats.sampling_rate)).toNat
  let il := (pyInt (interp_len * tr.stats.sampling_rate)).toNat
  let peaks := (List.range (data.length / wl)).flatMap (fun chunk =>
    _median_window fp ((data.drop (chunk * wl)).take wl) (chunk * wl) multiplier)
  { tr with data := peaks.foldl (fun d pk => _interp_gap d pk.2 il) tr.data }

/-- The correlation performed by `template_remove`:
`normxcorr2(tr.data.astype(np.float32), template.astype(np.float32))` — the
trace is passed in the `template` slot of `normxcorr2` and the spike template
in the `image` slot. -/
def template_remove_cc (kernel : Kernel) (trData : List ℚ)
    (template : List ℚ) : PyResult :=
  normxcorr2 kernel (NpVal.ndarray Dtype.float32 trData)
    (NpVal.ndarray Dtype.float32 template)

/-- `template_remove(tr, template, cc_thresh, interp_len)`: correlate
(`template_remove_cc`), find peaks above `cc_thresh` with `find_peaks2_short`
(called with its module default separation, hence the two-argument `fp2`),
and interpolate each peak location on `tr.data`. -/
def template_remove (kernel : Kernel) (fp2 : List ℚ → ℚ → List (ℚ × ℕ))
    (tr : Trace) (template : List ℚ) (cc_thresh : ℚ) (interp_len : ℚ) : Trace :=
  let il := (pyInt (tr.stats.sampling_rate * interp_len)).toNat
  let cc := pyResultArr (template_remove_cc kernel tr.data template)
  let peaks := fp2 cc cc_thresh
  { tr with data := peaks.foldl (fun d pk => _interp_gap d pk.2 il) tr.data }

/-!
Heap model for the frame claim about `match_filter`.

Numpy buffers live in a heap addressed by allocation order; the embedded
pipeline performs exactly the buffer operations of the source: reads of input
buffers, fresh allocations for `np.array([0]*p)`, `np.append`, the two
`astype(np.float32)` copies and the `matchTemplate` result, and — in the
plotting branch — a `copy.deepcopy` of `stream[0]` followed by an in-place
`decimate` write to that fresh copy.  Local Python variables holding arrays
never written through an input reference (`ccc`, `cccs_matrix`, `no_chans`,
`cccsums`) are modelled as pure values.
-/

abbrev ArrId := ℕ

abbrev Heap := List (List ℚ)

def readA (h : Heap) (i : ArrId) : List ℚ := h.getD i []

def allocA (h : Heap) (v : List ℚ) : Heap × ArrId := (h ++ [v], h.length)

def writeA (h : Heap) (i : ArrId) (v : List ℚ) : Heap := h.set i v

/-- `h2` extends `h`: no buffer existing in `h` has been resized away or
rewritten. -/
def HeapExt (h h2 : Heap) : Prop :=
  h.length ≤ h2.length ∧ ∀ i, i < h.length → readA h2 i = readA h i

/-- The channel aligner at heap level: allocate the pad buffer
(`np.array([0]*p)`) and the `np.append` copy; the trailing `[len(pad):]`
slice is a read-only numpy view of the copy. -/
def alignChannelH (h : Heap) (chanId : ArrId) (delay : ℚ)
    (sampling_rate : ℚ) : Heap × List ℚ :=
  let p := (pyRound (delay * sampling_rate)).toNat
  let hp := allocA h (List.replicate p 0)
  let ha := allocA hp.1 (readA hp.1 chanId ++ List.replicate p 0)
  (ha.1, (readA ha.1 ha.2).drop p)

/-- `normxcorr2` at heap level: both `astype(np.float32)` casts allocate
copies, and `cv2.matchTemplate` allocates its result buffer. -/
def normxcorr2H (kernel : Kernel) (h : Heap) (tplData img : List ℚ) :
    Heap × List ℚ :=
  let h1 := allocA h tplData
  let h2 := allocA h1.1 img
  let h3 := allocA h2.1 (kernel Dtype.float32 img Dtype.float32 tplData)
  (h3.1, readA h3.1 h3.2)

/-- `_template_loop_dev` at heap level: template channels are (stats, buffer)
pairs; matching channels run the aligner and the correlator, reading the
stream-channel and template buffers and allocating intermediates only. -/
def template_loop_heap (kernel : Kernel) (template : List (Stats × ArrId))
    (chanStats : Stats) (chanId : ArrId) (delays : List ℚ) (h : Heap) :
    Heap × List (Option ℚ) :=
  let init : List (Option ℚ) := List.replicate
    ((readA h chanId).length + 1 - (readA h (template.headI).2).length) none
  (List.range template.length).foldl (fun acc i =>
    let ti := template.getD i (defaultStats, 0)
    if ti.1.station = chanStats.station ∧ ti.1.channel = chanStats.channel then
      let ai := alignChannelH acc.1 chanId (delays.getD i 0) chanStats.sampling_rate
      let nc := normxcorr2H kernel ai.1 (readA ai.1 ti.2) ai.2
      (nc.1, nc.2.map some)
    else acc) (h, init)

/-- `_channel_loop_dev` at heap level.  `cccs_matrix` and `no_chans` are
locally allocated Python arrays never reachable from the inputs; they are
carried as pure values. -/
def channel_loop_heap (kernel : Kernel) (templates : List (List (Stats × ArrId)))
    (delays : List (List ℚ)) (stream : List (Stats × ArrId)) (h : Heap) :
    Heap × (List (List ℚ) × List ℕ) :=
  let L0 := (readA h (stream.headI).2).length + 1 -
    (readA h ((templates.headI).headI).2).length
  stream.foldl (fun acc ch =>
    let rowsH := (List.range templates.length).foldl (fun racc i =>
      let r := template_loop_heap kernel (templates.getD i []) ch.1 ch.2
        (delays.getD i []) racc.1
      (r.1, racc.2 ++ [r.2])) (acc.1, ([] : List (List (Option ℚ))))
    let upd := (List.range templates.length).map (fun i =>
      let row := rowsH.2.getD i []
      let m0 := acc.2.1.getD i []
      if row.any Option.isSome then
        (List.zipWith (· + ·) m0 (row.map (fun x => x.getD 0)), acc.2.2.getD i 0 + 1)
      else
        (List.zipWith (· + ·) m0 (List.replicate row.length 0), acc.2.2.getD i 0))
    (rowsH.1, upd.map Prod.fst, upd.map Prod.snd))
    (h, List.replicate templates.length (List.replicate L0 (0:ℚ)),
     List.replicate templates.length (0:ℕ))

/-- `match_filter` at heap level, returning the final heap.  The threshold
dispatch, peak finding and `DETECTION` construction work on local values and
never touch a buffer; per template, the plotting branch deep-copies
`stream[0]` into a fresh buffer and decimates that copy in place (`decim` is
the external obspy `Trace.decimate`). -/
def match_filter_heap (kernel : Kernel) (decim : List ℚ → List ℚ)
    (templates : List (List (Stats × ArrId))) (delays : List (List ℚ))
    (stream : List (Stats × ArrId)) (plotvar : Bool) (h : Heap) : Heap :=
  if ¬ stream.all (fun ch => ch.1.sampling_rate * 86400 = ((readA h ch.2).length : ℚ)) then
    h
  else
    let res := channel_loop_heap kernel templates delays stream h
    if (res.2.1.headI).length = 0 then
      res.1
    else
      (List.range res.2.1.length).foldl (fun hAcc _i =>
        if plotvar then
          let cp := allocA hAcc (readA hAcc (stream.headI).2)
          writeA cp.1 cp.2 (decim (readA cp.1 cp.2))
        else hAcc) res.1

/-- Does some channel of the template match the stream channel's station and
channel ids?  (The matching test of `_template_loop_dev`.) -/
def matchB (tpl : List Trace) (tr : Trace) : Bool :=
  tpl.any (fun ti => decide (ti.stats.station = tr.stats.station ∧
    ti.stats.channel = tr.stats.channel))

/-- The `av_chan_corr` comparison in `match_filter` is between the numeric
multiplier and a string, so the scalar fallback branch is what every
unrecognized `threshold_type` reaches: `computeRawthresh` never yields the
array threshold. -/
theorem computeRawthresh_scalar (threshold_type : String) (threshold : ℚ)
    (cccsum : List ℚ) (template_len : ℕ) :
    ∃ q, (computeRawthresh threshold_type threshold cccsum template_len).1 =
      RawThresh.scalar q := by
  unfold computeRawthresh pyFloatEqStr
  split
  · exact ⟨_, rfl⟩
  · split
    · exact ⟨_, rfl⟩
    · exact ⟨_, rfl⟩

lemma ratFloor_eq_floor (q : ℚ) : ratFloor q = ⌊q⌋ := by
  rw [ratFloor, Rat.floor_def]

lemma headI_mem_self {α} [Inhabited α] {l : List α} (h : l ≠ []) :
    l.headI ∈ l := by
  cases l with
  | nil => exact absurd rfl h
  | cons a t => exact List.mem_cons_self a t

/-- C1.  The spec (and the source's own docstring) promise that selecting the
`av_chan_corr` policy through `threshold_type` yields
`threshold*(cccsum/len(template))`; the code instead compares the numeric
`threshold` to the string `'av_chan_corr'` (always false in Python 2), so
`threshold_type='av_chan_corr'` with multiplier 2, `cccsum=[1,2,3]` and a
2-channel template falls into the unrecognized-policy fallback
`2*mean(|cccsum|)=4` with the warning, instead of the documented array
threshold `[1, 2, 3]`. -/
theorem C1_av_chan_corr_dispatch_eval :
    computeRawthresh "av_chan_corr" 2 [1, 2, 3] 2 =
      (RawThresh.scalar 4, true)
    ∧ ([(1:ℚ), 2, 3].map (fun c => (2:ℚ) * (c / (2:ℕ)))) = [1, 2, 3] := by
  constructor
  · show (if ("av_chan_corr" : String) = "MAD" then _ else _) = _
    rw [if_neg (by decide), if_neg (by decide), if_neg (by simp [pyFloatEqStr])]
    norm_num [npMean]
  · norm_num

/-- C5.  Any `threshold_type` outside the three recognized names reaches the
warning fallback `threshold*np.mean(np.abs(cccsum))`, and `match_filter`
proceeds to a normal result (no raise) whenever the daylong and
nonzero-length guards pass, which do not depend on the policy name. -/
theorem C5_unrecognized_policy_fallback (threshold_type : String)
    (h1 : threshold_type ≠ "MAD") (h2 : threshold_type ≠ "absolute")
    (h3 : threshold_type ≠ "av_chan_corr") :
    (∀ threshold cccsum template_len,
      computeRawthresh threshold_type threshold cccsum template_len =
        (RawThresh.scalar (threshold * npMean (cccsum.map (fun x => |x|))), true))
    ∧ ∀ kernel findPeaks template_names templates delays stream threshold
        trig_int plotvar,
        (∀ tr ∈ stream, tr.stats.sampling_rate * 86400 = (tr.data.length : ℚ)) →
        ((_channel_loop_dev kernel templates delays stream).1.headI).length ≠ 0 →
        ∃ dets, match_filter kernel findPeaks template_names templates delays
          stream threshold threshold_type trig_int plotvar = Except.ok dets := by
  constructor
  · intro threshold cccsum template_len
    unfold computeRawthresh
    rw [if_neg h1, if_neg h2, if_neg (by simp [pyFloatEqStr])]
  · intro kernel findPeaks template_names templates delays stream threshold
      trig_int plotvar hday hlen
    unfold match_filter
    rw [if_neg (by simpa [List.all_eq_true] using hday), if_neg (by simpa using hlen)]
    exact ⟨_, rfl⟩

/-- C5 witness: the fallback at `threshold_type="unknown_policy"`,
multiplier 2 and `cccsum=[1,2,3]`: threshold `2*mean(|cccsum|)` with the
warning flag set. -/
theorem C5_witness :
    computeRawthresh "unknown_policy" 2 [1, 2, 3] 2 =
      (RawThresh.scalar ((2:ℚ) * npMean ([(1:ℚ), 2, 3].map (fun x => |x|))), true) :=
  (C5_unrecognized_policy_fallback "unknown_policy" (by decide) (by decide)
    (by decide)).1 2 [1, 2, 3] 2

/-- The spec's glossary reading of MAD for a window: the median of absolute
deviations from the window's median (stated here only for comparison with
the source's computation). -/
def specWindowMAD (w : List ℚ) : ℚ :=
  npMedian (w.map (fun x => |x - npMedian w|))

/-- C6 counterexample.  On the window `[1,1,1,1]` with multiplier 1 the
despiker hands its peak finder the threshold `1 = median(|window|)`, while
the claim's MAD (median absolute deviation from the window's median) is `0`:
the code thresholds on the median absolute amplitude, not on the MAD. -/
theorem C6_counterexample :
    _median_window (fun _ thresh _ => [(thresh, 0)]) [1, 1, 1, 1] 0 1 = [(1, 0)]
    ∧ (1:ℚ) * specWindowMAD [1, 1, 1, 1] = 0
    ∧ (1:ℚ) ≠ 0 := by
  refine ⟨?_, ?_, by norm_num⟩
  · show (fun p => ((p.1 : ℚ), p.2 + 0)) <$> [((1:ℚ) * npMedian ([(1:ℚ),1,1,1].map (fun x => |x|)), 0)] = _
    norm_num [npMedian, List.insertionSort, List.orderedInsert]
  · norm_num [specWindowMAD, npMedian, List.insertionSort, List.orderedInsert]

/-- C6 amended.  In the windowed mode the threshold handed to the single
window peak finder (with the small default separation 5) equals
`multiplier * median(|window|)` — the median absolute amplitude of the
window's samples, not the median of deviations from the window median —
and the returned peak indices are shifted by the window start. -/
theorem C6_windowed_threshold (fp : FindPeaksShort) (window : List ℚ)
    (window_start : ℕ) (multiplier : ℚ) :
    _median_window fp window window_start multiplier =
      (fp window (multiplier * npMedian (window.map (fun x => |x|))) 5).map
        (fun p => (p.1, p.2 + window_start)) := rfl

/-- A correlation kernel obeying spec 4.1's contract: the output for an
image of length `I` and a template of length `T` has length `I - T + 1`
(clamped at zero), with every coefficient set to 1. -/
def contractKernel : Kernel :=
  fun _ img _ tpl => List.replicate (img.length + 1 - tpl.length) 1

/-- C7.  `template_remove` calls `normxcorr2(tr.data, template)`, so — for
every kernel — the openCV kernel receives the *spike template* in its image
slot and the *trace* in its template slot, the transpose of the Correlator
contract the claim states; with a contract-abiding kernel and the failing
input (trace `[1,2,3,4,5]`, spike template `[1,2,3]`) the correlation vector
is empty (length `3 - 5 + 1 ≤ 0`) instead of the claimed length
`n - T + 1 = 3`. -/
theorem C7_template_remove_swapped :
    (∀ kernel trData template, template_remove_cc kernel trData template =
      PyResult.arr (kernel Dtype.float32 template Dtype.float32 trData))
    ∧ pyResultArr
        (template_remove_cc contractKernel [1, 2, 3, 4, 5] [1, 2, 3]) = []
    ∧ ([1, 2, 3, 4, 5] : List ℚ).length + 1 - ([1, 2, 3] : List ℚ).length = 3 := by
  exact ⟨fun kernel trData template => rfl, rfl, by decide⟩

/-- C8.  `normxcorr2` returns the `'NaN'` string sentinel whenever either
argument is not a numpy array — for every kernel, so the kernel is never
consulted — and on two numpy arrays of any dtypes it calls the kernel with
both buffers coerced to float32. -/
theorem C8_normxcorr2_guard_and_cast :
    (∀ kernel image, normxcorr2 kernel NpVal.pyOther image =
      PyResult.strval "NaN")
    ∧ (∀ kernel template, normxcorr2 kernel template NpVal.pyOther =
      PyResult.strval "NaN")
    ∧ ∀ kernel dt di tdata idata,
        normxcorr2 kernel (NpVal.ndarray dt tdata) (NpVal.ndarray di idata) =
          PyResult.arr (kernel Dtype.float32 idata Dtype.float32 tdata) := by
  refine ⟨fun kernel image => rfl, fun kernel template => ?_,
    fun kernel dt di tdata idata => rfl⟩
  cases template <;> rfl

lemma pyRound_neg_one : pyRound (-1 : ℚ) = -1 := by
  rw [pyRound, if_neg (by norm_num), ratFloor_eq_floor]
  norm_num [Int.floor_eq_iff]

/-- C3 counterexample.  With sampling rate 1 and the signed delay `-1`,
`p = round(delay*sampling_rate) = -1`, and the claim's formula
`output[k] = input[k+p]` demands `output[1] = input[0] = 5`; but
`[0]*(-1)` is the empty list in Python, so the code returns the input
unchanged and `output[1] = 6`. -/
theorem C3_counterexample :
    pyRound ((-1 : ℚ) * 1) = -1
    ∧ alignChannel [5, 6, 7] (-1) 1 = [5, 6, 7]
    ∧ ([5, 6, 7] : List ℚ).getD 1 0 = 6
    ∧ ([5, 6, 7] : List ℚ).getD 0 0 = 5
    ∧ (6 : ℚ) ≠ 5 := by
  refine ⟨by rw [show ((-1 : ℚ) * 1) = -1 by norm_num]; exact pyRound_neg_one,
    ?_, rfl, rfl, by norm_num⟩
  simp [alignChannel, pyRound_neg_one]

/-- C3 amended.  For delays whose rounded sample shift `p =
round(delay*sampling_rate)` is nonnegative, the aligner pads `p` zeros at
the trailing end and drops the first `p` samples: the output has the
input's length, `output[k] = input[k+p]` while `k+p` is in range and `0`
beyond; and a zero delay is the identity.  (For a negative rounded shift
the pad `[0]*p` is empty and the output equals the input, as the
counterexample shows.) -/
theorem C3_channel_aligner (data : List ℚ) (delay sampling_rate : ℚ)
    (h : 0 ≤ pyRound (delay * sampling_rate)) :
    (((pyRound (delay * sampling_rate)).toNat : ℤ) =
        pyRound (delay * sampling_rate))
    ∧ (alignChannel data delay sampling_rate).length = data.length
    ∧ (∀ k, k < data.length →
        (alignChannel data delay sampling_rate).getD k 0 =
          if k + (pyRound (delay * sampling_rate)).toNat < data.length then
            data.getD (k + (pyRound (delay * sampling_rate)).toNat) 0
          else 0)
    ∧ ∀ d : List ℚ, alignChannel d 0 sampling_rate = d := by
  set p := (pyRound (delay * sampling_rate)).toNat with hp
  have hlen : (alignChannel data delay sampling_rate).length = data.length := by
    simp [alignChannel, ← hp, List.length_drop]
  refine ⟨Int.toNat_of_nonneg h, hlen, ?_, ?_⟩
  · intro k hk
    have hk2 : k < (alignChannel data delay sampling_rate).length := by
      rw [hlen]; exact hk
    rw [List.getD_eq_getElem _ _ hk2]
    show (List.drop p (data ++ List.replicate p 0))[k] = _
    have hk3 : k < (List.drop p (data ++ List.replicate p 0)).length := hk2
    rw [List.getElem_drop]
    by_cases hcase : k + p < data.length
    · rw [if_pos hcase]
      have hpk : p + k < data.length := by omega
      rw [List.getElem_append_left hpk, List.getD_eq_getElem _ _ (by omega : k + p < data.length)]
      congr 1
      omega
    · rw [if_neg hcase]
      have hge : data.length ≤ p + k := by omega
      have hbound : p + k < (data ++ List.replicate p 0).length := by
        simp only [List.length_append, List.length_replicate]
        omega
      rw [List.getElem_append_right hge]
      exact List.getElem_replicate _ _
  · intro d
    have h0 : pyRound (0 : ℚ) = 0 := by
      rw [pyRound, if_pos le_rfl, ratFloor_eq_floor]
      norm_num [Int.floor_eq_iff]
    simp [alignChannel, h0]

/-- C3 witness: delay 2 at sampling rate 1 shifts by two samples:
`alignChannel [1,2,3,4] 2 1` has `3` at index 0. -/
theorem C3_witness : (alignChannel [1, 2, 3, 4] 2 1).getD 0 0 = (3 : ℚ) := by
  have hp : pyRound ((2 : ℚ) * 1) = 2 := by
    have h1 : ((2 : ℚ) * 1) = 2 := by norm_num
    rw [h1, pyRound, if_pos (by norm_num), ratFloor_eq_floor]
    norm_num [Int.floor_eq_iff]
  have h := (C3_channel_aligner [1, 2, 3, 4] 2 1 (by rw [hp]; norm_num)).2.2.1 0
    (by norm_num)
  rw [hp] at h
  simpa using h

lemma npLinspace_length (a b : ℚ) (num : ℕ) :
    (npLinspace a b num).length = num := by
  unfold npLinspace
  split_ifs with h1 h2
  · simp [h1]
  · simp [h2]
  · rw [List.length_map, List.length_range]

lemma interp_gap_eq (data : List ℚ) (p w : ℕ) :
    _interp_gap data p w =
      data.take (p - w / 2) ++
        npLinspace (data.getD (p - w / 2) 0)
          (data.getD (min (p + w / 2) (data.length - 1)) 0)
          (min (p + w / 2) (data.length - 1) - (p - w / 2)) ++
        data.drop (min (p + w / 2) (data.length - 1)) := rfl

/-- C9.  For a flagged location `p` inside the data and window length `w`,
the despiker's gap interpolation only touches the clamped half-open window
`[max(0, p - w/2), min(n-1, p + w/2))` — `Nat` subtraction performs the
lower clamp — leaving length and all other samples unchanged, and fills the
window with the `np.linspace` straight line between the values at the
window's edge positions.  The final conjunct records that `median_filter`
applies these interpolations to the original `tr.data` while the flagged
locations come from the detrended/band-passed copy `filt tr.data`. -/
theorem C9_interp_gap_frame (data : List ℚ) (p w : ℕ) (hp : p < data.length) :
    (_interp_gap data p w).length = data.length
    ∧ (∀ j, j < data.length →
        (j < p - w / 2 ∨ min (p + w / 2) (data.length - 1) ≤ j) →
        (_interp_gap data p w).getD j 0 = data.getD j 0)
    ∧ (∀ j, p - w / 2 ≤ j → j < min (p + w / 2) (data.length - 1) →
        (_interp_gap data p w).getD j 0 =
          (npLinspace (data.getD (p - w / 2) 0)
            (data.getD (min (p + w / 2) (data.length - 1)) 0)
            (min (p + w / 2) (data.length - 1) - (p - w / 2))).getD
            (j - (p - w / 2)) 0)
    ∧ ∀ (filt : List ℚ → List ℚ) (fp : FindPeaksShort) (tr : Trace)
        (multiplier windowlength interp_len : ℚ),
        (median_filter filt fp tr multiplier windowlength interp_len).data =
          ((List.range ((filt tr.data).length /
              (pyInt (windowlength * tr.stats.sampling_rate)).toNat)).flatMap
            (fun chunk => _median_window fp
              (((filt tr.data).drop
                (chunk * (pyInt (windowlength * tr.stats.sampling_rate)).toNat)).take
                ((pyInt (windowlength * tr.stats.sampling_rate)).toNat))
              (chunk * (pyInt (windowlength * tr.stats.sampling_rate)).toNat)
              multiplier)).foldl
            (fun d pk => _interp_gap d pk.2
              ((pyInt (interp_len * tr.stats.sampling_rate)).toNat)) tr.data := by
  have hs_le : p - w / 2 ≤ min (p + w / 2) (data.length - 1) := by omega
  have he_lt : min (p + w / 2) (data.length - 1) < data.length := by omega
  have htake : (data.take (p - w / 2)).length = p - w / 2 := by
    rw [List.length_take]; omega
  have hfill : (npLinspace (data.getD (p - w / 2) 0)
      (data.getD (min (p + w / 2) (data.length - 1)) 0)
      (min (p + w / 2) (data.length - 1) - (p - w / 2))).length =
      min (p + w / 2) (data.length - 1) - (p - w / 2) := npLinspace_length _ _ _
  have hlf : (data.take (p - w / 2) ++ npLinspace (data.getD (p - w / 2) 0)
      (data.getD (min (p + w / 2) (data.length - 1)) 0)
      (min (p + w / 2) (data.length - 1) - (p - w / 2))).length =
      min (p + w / 2) (data.length - 1) := by
    rw [List.length_append, htake, hfill]; omega
  have hlen : (_interp_gap data p w).length = data.length := by
    rw [interp_gap_eq, List.length_append, hlf, List.length_drop]; omega
  refine ⟨hlen, ?_, ?_, fun filt fp tr m wl il => rfl⟩
  · intro j hj hside
    have hj2 : j < (_interp_gap data p w).length := by rw [hlen]; exact hj
    rw [List.getD_eq_getElem _ _ hj2, List.getD_eq_getElem _ _ hj]
    rcases hside with hlt | hge
    · have hj3 : j < (data.take (p - w / 2) ++ npLinspace (data.getD (p - w / 2) 0)
          (data.getD (min (p + w / 2) (data.length - 1)) 0)
          (min (p + w / 2) (data.length - 1) - (p - w / 2))).length := by
        rw [hlf]; omega
      have hj4 : j < (data.take (p - w / 2)).length := by rw [htake]; exact hlt
      rw [List.getElem_of_eq (interp_gap_eq data p w) hj2,
        List.getElem_append_left hj3, List.getElem_append_left hj4,
        List.getElem_take]
    · have hj3 : (data.take (p - w / 2) ++ npLinspace (data.getD (p - w / 2) 0)
          (data.getD (min (p + w / 2) (data.length - 1)) 0)
          (min (p + w / 2) (data.length - 1) - (p - w / 2))).length ≤ j := by
        rw [hlf]; exact hge
      rw [List.getElem_of_eq (interp_gap_eq data p w) hj2,
        List.getElem_append_right hj3, List.getElem_drop]
      congr 1
      rw [hlf]
      omega
  · intro j hjs hje
    have hj : j < data.length := by omega
    have hj2 : j < (_interp_gap data p w).length := by rw [hlen]; exact hj
    have hjfill : j - (p - w / 2) < (npLinspace (data.getD (p - w / 2) 0)
        (data.getD (min (p + w / 2) (data.length - 1)) 0)
        (min (p + w / 2) (data.length - 1) - (p - w / 2))).length := by
      rw [hfill]; omega
    rw [List.getD_eq_getElem _ _ hj2, List.getD_eq_getElem _ _ hjfill]
    have hj3 : j < (data.take (p - w / 2) ++ npLinspace (data.getD (p - w / 2) 0)
        (data.getD (min (p + w / 2) (data.length - 1)) 0)
        (min (p + w / 2) (data.length - 1) - (p - w / 2))).length := by
      rw [hlf]; exact hje
    have hj4 : (data.take (p - w / 2)).length ≤ j := by rw [htake]; exact hjs
    rw [List.getElem_of_eq (interp_gap_eq data p w) hj2,
      List.getElem_append_left hj3, List.getElem_append_right hj4]
    congr 1
    rw [htake]

/-- C9 witness: interpolation window around peak 2 with `interp_len` 2 in a
5-sample trace leaves the samples at indices 0 and 4 untouched. -/
theorem C9_witness :
    (_interp_gap [10, 20, 30, 40, 50] 2 2).getD 0 0 = (10 : ℚ)
    ∧ (_interp_gap [10, 20, 30, 40, 50] 2 2).getD 4 0 = (50 : ℚ) := by
  have h := C9_interp_gap_frame [10, 20, 30, 40, 50] 2 2 (by decide)
  exact ⟨(h.2.1 0 (by decide) (by decide)).trans rfl,
    (h.2.1 4 (by decide) (by decide)).trans rfl⟩

lemma alignChannel_length (d : List ℚ) (delay sr : ℚ) :
    (alignChannel d delay sr).length = d.length := by
  simp [alignChannel, List.length_drop]

lemma foldl_fixed {α β : Type} {f : α → β → α} :
    ∀ {l : List β} {a : α}, (∀ b x, x ∈ l → f b x = b) → l.foldl f a = a := by
  intro l
  induction l with
  | nil => intro a _; rfl
  | cons x xs ih =>
    intro a h
    rw [List.foldl_cons, h a x (List.mem_cons_self _ _)]
    exact ih (fun b y hy => h b y (List.mem_cons_of_mem _ hy))

lemma foldl_select {α β : Type} (f : α → β → α) (g : β → α) (cond : β → Bool)
    (hf : ∀ a b, f a b = if cond b then g b else a) :
    ∀ (l : List β) (a : α), (∃ x ∈ l, cond x = true) →
      ∃ x ∈ l, cond x = true ∧ l.foldl f a = g x := by
  intro l
  induction l with
  | nil =>
    intro a h
    rcases h with ⟨x, hx, _⟩
    exact absurd hx (List.not_mem_nil x)
  | cons x xs ih =>
    intro a h
    by_cases hxs : ∃ y ∈ xs, cond y = true
    · rcases ih (f a x) hxs with ⟨y, hy, hcy, heq⟩
      exact ⟨y, List.mem_cons_of_mem _ hy, hcy, by rw [List.foldl_cons]; exact heq⟩
    · have hx : cond x = true := by
        rcases h with ⟨z, hz, hcz⟩
        rcases List.mem_cons.mp hz with rfl | hz2
        · exact hcz
        · exact absurd ⟨z, hz2, hcz⟩ hxs
      have hkeep : ∀ b y, y ∈ xs → f b y = b := by
        intro b y hy
        rw [hf, if_neg (fun hc => hxs ⟨y, hy, hc⟩)]
      refine ⟨x, List.mem_cons_self _ _, hx, ?_⟩
      rw [List.foldl_cons, foldl_fixed hkeep, hf, if_pos hx]

/-- The station/channel test of `_template_loop_dev` at template index `i`. -/
def tmatchP (template : List Trace) (chan : Trace) (i : ℕ) : Prop :=
  (template.getD i defaultTrace).stats.station = chan.stats.station ∧
  (template.getD i defaultTrace).stats.channel = chan.stats.channel

instance (template : List Trace) (chan : Trace) (i : ℕ) :
    Decidable (tmatchP template chan i) := by
  unfold tmatchP; infer_instance

/-- The correlation row `_template_loop_dev` computes for a matching template
channel `i`: the kernel applied to the aligned image and the template data,
wrapped in `some`. -/
def tRow (kernel : Kernel) (template : List Trace) (chan : Trace)
    (delays : List ℚ) (i : ℕ) : List (Option ℚ) :=
  (kernel Dtype.float32
    (alignChannel chan.data (delays.getD i 0) chan.stats.sampling_rate)
    Dtype.float32 (template.getD i defaultTrace).data).map some

lemma tld_eq_foldl (kernel : Kernel) (template : List Trace) (chan : Trace)
    (delays : List ℚ) :
    _template_loop_dev kernel template chan delays =
      (List.range template.length).foldl (fun ccc i =>
        if tmatchP template chan i then tRow kernel template chan delays i
        else ccc)
      (List.replicate (chan.data.length + 1 - (template.headI).data.length)
        none) := rfl

lemma tld_unmatched (kernel : Kernel) (template : List Trace) (chan : Trace)
    (delays : List ℚ) (h : matchB template chan = false) :
    _template_loop_dev kernel template chan delays =
      List.replicate (chan.data.length + 1 - (template.headI).data.length)
        none := by
  rw [tld_eq_foldl]
  apply foldl_fixed
  intro b i hi
  rw [if_neg]
  intro hmatch
  have hilt : i < template.length := List.mem_range.mp hi
  have hmem : template.getD i defaultTrace ∈ template := by
    rw [List.getD_eq_getElem _ _ hilt]
    exact List.getElem_mem _
  have hfalse := List.any_eq_false.mp h _ hmem
  exact hfalse (decide_eq_true hmatch)

lemma tld_matched (kernel : Kernel) (template : List Trace) (chan : Trace)
    (delays : List ℚ) (h : matchB template chan = true) :
    ∃ i, i < template.length ∧ tmatchP template chan i ∧
      _template_loop_dev kernel template chan delays =
        tRow kernel template chan delays i := by
  rw [tld_eq_foldl]
  have hf : ∀ (a : List (Option ℚ)) (b : ℕ),
      (if tmatchP template chan b then tRow kernel template chan delays b
       else a) =
      if decide (tmatchP template chan b) = true then
        tRow kernel template chan delays b
      else a := by
    intro a b
    by_cases hb : tmatchP template chan b <;> simp [hb]
  have hex : ∃ x ∈ List.range template.length,
      decide (tmatchP template chan x) = true := by
    rcases List.any_eq_true.mp h with ⟨ti, hti, hdec⟩
    rcases List.mem_iff_getElem.mp hti with ⟨j, hj, hgj⟩
    refine ⟨j, List.mem_range.mpr hj, ?_⟩
    have : template.getD j defaultTrace = ti := by
      rw [List.getD_eq_getElem _ _ hj]; exact hgj
    apply decide_eq_true
    unfold tmatchP
    rw [this]
    exact of_decide_eq_true hdec
  rcases foldl_select _ (tRow kernel template chan delays)
    (fun i => decide (tmatchP template chan i)) hf
    (List.range template.length) _ hex with ⟨i, hi, hci, heq⟩
  exact ⟨i, List.mem_range.mp hi, of_decide_eq_true hci, heq⟩

lemma getD_range_map {α : Type} (N i : ℕ) (f : ℕ → α) (d : α) (h : i < N) :
    ((List.range N).map f).getD i d = f i := by
  rw [List.getD_eq_getElem _ _ (by simpa using h), List.getElem_map,
    List.getElem_range]

lemma channelStep_getD (kernel : Kernel) (T : List (List Trace))
    (D : List (List ℚ)) (acc : List (List ℚ) × List ℕ) (tr : Trace) (i : ℕ)
    (h : i < T.length) :
    (channelStep kernel T D acc tr).1.getD i [] =
      List.zipWith (· + ·) (acc.1.getD i [])
        (if (_template_loop_dev kernel (T.getD i []) tr (D.getD i [])).any
            Option.isSome then
          (_template_loop_dev kernel (T.getD i []) tr (D.getD i [])).map
            (fun x => x.getD 0)
        else
          List.replicate
            (_template_loop_dev kernel (T.getD i []) tr (D.getD i [])).length 0)
    ∧ (channelStep kernel T D acc tr).2.getD i 0 =
      acc.2.getD i 0 +
        (if (_template_loop_dev kernel (T.getD i []) tr (D.getD i [])).any
            Option.isSome then 1 else 0) := by
  unfold channelStep
  simp only [List.map_map]
  rw [getD_range_map _ i _ [] h, getD_range_map _ i _ 0 h,
    Function.comp_apply, Function.comp_apply,
    getD_range_map _ i _ [] h]
  cases hb : (_template_loop_dev kernel (T.getD i []) tr
      (D.getD i [])).any Option.isSome
  · constructor <;> simp
  · constructor <;> simp

lemma channel_fold (kernel : Kernel) (T : List (List Trace))
    (D : List (List ℚ)) :
    ∀ (s : List Trace) (acc : List (List ℚ) × List ℕ) (i : ℕ),
      i < T.length →
      ((s.foldl (channelStep kernel T D) acc).2.getD i 0 =
        acc.2.getD i 0 +
          (s.filter (fun tr =>
            (_template_loop_dev kernel (T.getD i []) tr (D.getD i [])).any
              Option.isSome)).length)
      ∧ ((s.foldl (channelStep kernel T D) acc).1.getD i [] =
        s.foldl (fun v tr =>
          List.zipWith (· + ·) v
            (if (_template_loop_dev kernel (T.getD i []) tr (D.getD i [])).any
                Option.isSome then
              (_template_loop_dev kernel (T.getD i []) tr (D.getD i [])).map
                (fun x => x.getD 0)
            else
              List.replicate
                (_template_loop_dev kernel (T.getD i []) tr
                  (D.getD i [])).length 0))
          (acc.1.getD i [])) := by
  intro s
  induction s with
  | nil =>
    intro acc i h
    exact ⟨by simp, by simp⟩
  | cons tr s ih =>
    intro acc i h
    have hstep := channelStep_getD kernel T D acc tr i h
    have hih := ih (channelStep kernel T D acc tr) i h
    constructor
    · rw [List.foldl_cons, hih.1, hstep.2, List.filter_cons]
      split
      · simp only [List.length_cons]
        omega
      · omega
    · rw [List.foldl_cons, hih.2, hstep.1, List.foldl_cons]

lemma channelStep_lengths (kernel : Kernel) (T : List (List Trace))
    (D : List (List ℚ)) (acc : List (List ℚ) × List ℕ) (tr : Trace) :
    (channelStep kernel T D acc tr).1.length = T.length ∧
    (channelStep kernel T D acc tr).2.length = T.length := by
  unfold channelStep
  simp

lemma channel_fold_lengths (kernel : Kernel) (T : List (List Trace))
    (D : List (List ℚ)) :
    ∀ (s : List Trace) (acc : List (List ℚ) × List ℕ),
      acc.1.length = T.length → acc.2.length = T.length →
      (s.foldl (channelStep kernel T D) acc).1.length = T.length ∧
      (s.foldl (channelStep kernel T D) acc).2.length = T.length := by
  intro s
  induction s with
  | nil => intro acc h1 h2; exact ⟨h1, h2⟩
  | cons tr s ih =>
    intro acc h1 h2
    rw [List.foldl_cons]
    exact ih _ (channelStep_lengths kernel T D acc tr).1
      (channelStep_lengths kernel T D acc tr).2

lemma foldl_congr_mem {α β : Type} {f g : α → β → α} :
    ∀ {l : List β} {a : α}, (∀ acc x, x ∈ l → f acc x = g acc x) →
      l.foldl f a = l.foldl g a := by
  intro l
  induction l with
  | nil => intro a _; rfl
  | cons x xs ih =>
    intro a h
    rw [List.foldl_cons, List.foldl_cons, h a x (List.mem_cons_self _ _)]
    exact ih (fun acc y hy => h acc y (List.mem_cons_of_mem _ hy))

lemma any_isSome_map_some (v : List ℚ) (hv : v ≠ []) :
    (v.map some).any Option.isSome = true := by
  cases v with
  | nil => exact absurd rfl hv
  | cons a t => simp

lemma any_isSome_replicate_none (m : ℕ) :
    ((List.replicate m (none : Option ℚ)).any Option.isSome) = false := by
  rw [List.any_eq_false]
  intro x hx
  rw [List.eq_of_mem_replicate hx]
  simp

/-- C2.  Under the engine's stated preconditions (nonempty template set, each
template nonempty with all channels of length `tl`, nonempty stream with all
channels of length `n ≥ tl`) and the correlation kernel's length contract,
`_channel_loop_dev` returns: (i) channel counts where `no_chans[t]` is exactly
the number of stream channels whose station+channel id matches some channel
of template `t`; (ii) a per-channel row that is not entirely `NaN` exactly
when the channel matches; and (iii) correlation sums accumulated channel by
channel, a matching channel contributing its correlation row and a
non-matching channel contributing the all-`NaN` row converted to zeros. -/
theorem C2_engine_channel_counts
    (kernel : Kernel) (templates : List (List Trace)) (delays : List (List ℚ))
    (stream : List Trace) (n tl : ℕ)
    (hT : templates ≠ [])
    (hTne : ∀ tpl ∈ templates, tpl ≠ [])
    (hS : stream ≠ [])
    (htl : ∀ tpl ∈ templates, ∀ ti ∈ tpl, ti.data.length = tl)
    (hn : ∀ tr ∈ stream, tr.data.length = n)
    (hlen : tl ≤ n)
    (hker : ∀ d1 img d2 tp, (kernel d1 img d2 tp).length =
      img.length + 1 - tp.length) :
    ((_channel_loop_dev kernel templates delays stream).2 =
      templates.map (fun tpl =>
        (stream.filter (fun tr => matchB tpl tr)).length))
    ∧ (∀ i, i < templates.length → ∀ tr ∈ stream,
        (_template_loop_dev kernel (templates.getD i []) tr
            (delays.getD i [])).any Option.isSome =
          matchB (templates.getD i []) tr)
    ∧ (∀ i, i < templates.length →
        (_channel_loop_dev kernel templates delays stream).1.getD i [] =
          stream.foldl (fun v tr =>
            List.zipWith (· + ·) v
              (if matchB (templates.getD i []) tr then
                (_template_loop_dev kernel (templates.getD i []) tr
                  (delays.getD i [])).map (fun x => x.getD 0)
              else List.replicate (n + 1 - tl) 0))
            (List.replicate (n + 1 - tl) 0)) := by
  have hc : ∀ i, i < templates.length → ∀ tr ∈ stream,
      (_template_loop_dev kernel (templates.getD i []) tr
          (delays.getD i [])).any Option.isSome =
        matchB (templates.getD i []) tr := by
    intro i hi tr htr
    have htpl_mem : templates.getD i [] ∈ templates := by
      rw [List.getD_eq_getElem _ _ hi]
      exact List.getElem_mem _
    cases hm : matchB (templates.getD i []) tr
    · rw [tld_unmatched kernel _ tr _ hm]
      exact any_isSome_replicate_none _
    · rcases tld_matched kernel (templates.getD i []) tr (delays.getD i []) hm
        with ⟨j, hj, _, heq⟩
      rw [heq]
      unfold tRow
      apply any_isSome_map_some
      have htj_mem : (templates.getD i []).getD j defaultTrace ∈
          templates.getD i [] := by
        rw [List.getD_eq_getElem _ _ hj]
        exact List.getElem_mem _
      have hklen : (kernel Dtype.float32
          (alignChannel tr.data ((delays.getD i []).getD j 0)
            tr.stats.sampling_rate)
          Dtype.float32 ((templates.getD i []).getD j defaultTrace).data).length =
          n + 1 - tl := by
        rw [hker, alignChannel_length, hn tr htr, htl _ htpl_mem _ htj_mem]
      intro hnil
      rw [hnil] at hklen
      simp at hklen
      omega
  have hinit1 : (List.replicate templates.length
      (List.replicate ((stream.headI).data.length + 1 -
        ((templates.headI).headI).data.length) (0:ℚ))).length =
      templates.length := by simp
  have hinit2 : (List.replicate templates.length (0:ℕ)).length =
      templates.length := by simp
  have hL0 : (stream.headI).data.length + 1 -
      ((templates.headI).headI).data.length = n + 1 - tl := by
    have h1 : (stream.headI).data.length = n := hn _ (headI_mem_self hS)
    have h2 : templates.headI ∈ templates := headI_mem_self hT
    have h3 : (templates.headI).headI ∈ templates.headI :=
      headI_mem_self (hTne _ h2)
    have h4 : ((templates.headI).headI).data.length = tl := htl _ h2 _ h3
    rw [h1, h4]
  have hCLD : _channel_loop_dev kernel templates delays stream =
      stream.foldl (channelStep kernel templates delays)
        (List.replicate templates.length
          (List.replicate ((stream.headI).data.length + 1 -
            ((templates.headI).headI).data.length) (0:ℚ)),
         List.replicate templates.length (0:ℕ)) := rfl
  refine ⟨?_, hc, ?_⟩
  · have hl2 : (_channel_loop_dev kernel templates delays stream).2.length =
        templates.length := by
      rw [hCLD]
      exact (channel_fold_lengths kernel templates delays stream _
        hinit1 hinit2).2
    apply List.ext_getElem
    · rw [hl2, List.length_map]
    · intro i h1 h2
      have hi : i < templates.length := by rw [hl2] at h1; exact h1
      rw [List.getElem_map]
      rw [← List.getD_eq_getElem _ 0 h1]
      rw [hCLD]
      rw [(channel_fold kernel templates delays stream _ i hi).1]
      have hz : (List.replicate templates.length (0:ℕ),
          (0:ℕ)).1.getD i 0 = 0 := by
        simp [List.getD_eq_getElem, hi]
      have hzi : (List.replicate templates.length (0:ℕ)).getD i 0 = 0 := by
        rw [List.getD_eq_getElem _ _ (by simpa using hi), List.getElem_replicate]
      rw [show (List.replicate templates.length
          (List.replicate ((stream.headI).data.length + 1 -
            ((templates.headI).headI).data.length) (0:ℚ)),
          List.replicate templates.length (0:ℕ)).2 =
          List.replicate templates.length (0:ℕ) from rfl, hzi, Nat.zero_add]
      have hgd : templates.getD i [] = templates[i] :=
        List.getD_eq_getElem _ _ hi
      rw [List.filter_congr (fun tr htr => by rw [hc i hi tr htr, hgd])]
  · intro i hi
    rw [hCLD, (channel_fold kernel templates delays stream _ i hi).2]
    have hzi : (List.replicate templates.length
        (List.replicate ((stream.headI).data.length + 1 -
          ((templates.headI).headI).data.length) (0:ℚ))).getD i [] =
        List.replicate (n + 1 - tl) 0 := by
      rw [List.getD_eq_getElem _ _ (by simpa using hi),
        List.getElem_replicate, hL0]
    rw [show (List.replicate templates.length
        (List.replicate ((stream.headI).data.length + 1 -
          ((templates.headI).headI).data.length) (0:ℚ)),
        List.replicate templates.length (0:ℕ)).1 =
        List.replicate templates.length
          (List.replicate ((stream.headI).data.length + 1 -
            ((templates.headI).headI).data.length) (0:ℚ)) from rfl, hzi]
    apply foldl_congr_mem
    intro acc tr htr
    rw [hc i hi tr htr]
    cases hm : matchB (templates.getD i []) tr
    · rw [if_neg (by simp [hm]), if_neg (by simp [hm])]
      rw [tld_unmatched kernel _ tr _ hm, List.length_replicate]
      have htpl_mem : templates.getD i [] ∈ templates := by
        rw [List.getD_eq_getElem _ _ hi]
        exact List.getElem_mem _
      have h3 : (templates.getD i []).headI ∈ templates.getD i [] :=
        headI_mem_self (hTne _ htpl_mem)
      rw [hn tr htr, htl _ htpl_mem _ h3]
    · rw [if_pos (by simp [hm]), if_pos (by simp [hm])]

/-- C2 witness: one single-channel template (`A.Z`) against a two-channel
stream (`A.Z`, `B.Z`) with a contract-abiding kernel: `no_chans = [1]`,
counting exactly the matching stream channel. -/
theorem C2_witness :
    (_channel_loop_dev
      (fun _ img _ tp => List.replicate (img.length + 1 - tp.length) (1:ℚ))
      [[⟨⟨"A", "Z", 1, 0⟩, [2]⟩]] [[0]]
      [⟨⟨"A", "Z", 1, 0⟩, [3, 4]⟩, ⟨⟨"B", "Z", 1, 0⟩, [5, 6]⟩]).2 = [1] := by
  have h := (C2_engine_channel_counts
    (fun _ img _ tp => List.replicate (img.length + 1 - tp.length) (1:ℚ))
    [[⟨⟨"A", "Z", 1, 0⟩, [2]⟩]] [[0]]
    [⟨⟨"A", "Z", 1, 0⟩, [3, 4]⟩, ⟨⟨"B", "Z", 1, 0⟩, [5, 6]⟩] 2 1
    (List.cons_ne_nil _ _)
    (by
      intro tpl htpl
      rw [List.mem_singleton] at htpl
      subst htpl
      exact List.cons_ne_nil _ _)
    (List.cons_ne_nil _ _)
    (by
      intro tpl htpl ti hti
      rw [List.mem_singleton] at htpl
      subst htpl
      rw [List.mem_singleton] at hti
      subst hti
      rfl)
    (by
      intro tr htr
      rcases List.mem_cons.mp htr with h | h2
      · subst h; rfl
      · rw [List.mem_singleton] at h2; subst h2; rfl)
    (by omega)
    (fun d1 img d2 tp => List.length_replicate _ _)).1
  rw [h]
  decide

/-- C4 amended.  Every detection an `ok` run of `match_filter` returns comes
from some template index `i` and some accepted peak: it carries the
template's name, detection time `starttime + peak_sample/sampling_rate`, the
template's contributing channel count, the raw correlation-sum value at the
peak, the scalar raw threshold used, the fixed tag `"corr"` — and `chans =
None`: `match_filter` passes no channel-name list to the `DETECTION`
constructor (its `chans` keyword stays at its default). -/
theorem C4_detection_fields
    (kernel : Kernel) (findPeaks : FindPeaks) (template_names : List String)
    (templates : List (List Trace)) (delays : List (List ℚ))
    (stream : List Trace) (threshold : ℚ) (threshold_type : String)
    (trig_int : ℚ) (plotvar : Bool) (dets : List DETECTION)
    (hok : match_filter kernel findPeaks template_names templates delays
      stream threshold threshold_type trig_int plotvar = Except.ok dets) :
    ∀ d ∈ dets, ∃ i rawthresh peak,
      i < (_channel_loop_dev kernel templates delays stream).1.length
      ∧ (computeRawthresh threshold_type threshold
          ((_channel_loop_dev kernel templates delays stream).1.getD i [])
          (templates.getD i []).length).1 = RawThresh.scalar rawthresh
      ∧ pyMax ((_channel_loop_dev kernel templates delays stream).1.getD i [])
          > rawthresh
      ∧ peak ∈ findPeaks
          ((_channel_loop_dev kernel templates delays stream).1.getD i [])
          rawthresh (trig_int * (stream.headI).stats.sampling_rate)
      ∧ d.template_name = template_names.getD i ""
      ∧ d.detect_time = (stream.headI).stats.starttime +
          (peak.2 : ℚ) / (stream.headI).stats.sampling_rate
      ∧ d.no_chans =
          (_channel_loop_dev kernel templates delays stream).2.getD i 0
      ∧ d.detect_val = peak.1
      ∧ d.threshold = rawthresh
      ∧ d.typeofdet = "corr"
      ∧ d.chans = none := by
  intro d hd
  unfold match_filter at hok
  split at hok
  · exact absurd hok (by simp)
  · simp only [] at hok
    split at hok
    · exact absurd hok (by simp)
    · have hdets : dets =
          (List.range (_channel_loop_dev kernel templates delays
            stream).1.length).flatMap (fun i =>
          match (computeRawthresh threshold_type threshold
              ((_channel_loop_dev kernel templates delays stream).1.getD i [])
              (templates.getD i []).length).1 with
          | RawThresh.vector _ => []
          | RawThresh.scalar rawthresh =>
            (if pyMax ((_channel_loop_dev kernel templates delays
                stream).1.getD i []) > rawthresh then
              findPeaks ((_channel_loop_dev kernel templates delays
                stream).1.getD i []) rawthresh
                (trig_int * (stream.headI).stats.sampling_rate)
            else []).map (fun peak =>
              { template_name := template_names.getD i ""
                detect_time := (stream.headI).stats.starttime +
                  (peak.2 : ℚ) / (stream.headI).stats.sampling_rate
                no_chans := (_channel_loop_dev kernel templates delays
                  stream).2.getD i 0
                chans := none
                detect_val := peak.1
                threshold := rawthresh
                typeofdet := "corr" })) :=
        (Except.ok.inj hok).symm
      rw [hdets] at hd
      rcases List.mem_flatMap.mp hd with ⟨i, hir, hmem⟩
      have hi : i < (_channel_loop_dev kernel templates delays
          stream).1.length := List.mem_range.mp hir
      refine ⟨i, ?_⟩
      rcases hct : (computeRawthresh threshold_type threshold
          ((_channel_loop_dev kernel templates delays stream).1.getD i [])
          (templates.getD i []).length).1 with q | v
      · rw [hct] at hmem
        simp only [] at hmem
        by_cases hmax : pyMax ((_channel_loop_dev kernel templates delays
            stream).1.getD i []) > q
        · rw [if_pos hmax] at hmem
          rcases List.mem_map.mp hmem with ⟨peak, hpk, hde⟩
          exact ⟨q, peak, hi, rfl, hmax, hpk, by rw [← hde], by rw [← hde],
            by rw [← hde], by rw [← hde], by rw [← hde], by rw [← hde],
            by rw [← hde]⟩
        · rw [if_neg hmax] at hmem
          simp at hmem
      · rw [hct] at hmem
        simp at hmem

lemma pyRound_zero : pyRound (0 : ℚ) = 0 := by
  rw [pyRound, if_pos le_rfl, ratFloor_eq_floor]
  norm_num [Int.floor_eq_iff]

/-- Concrete kernel for the driver scenario: contract-length output filled
with the coefficient 5. -/
def c4Kernel : Kernel :=
  fun _ img _ tp => List.replicate (img.length + 1 - tp.length) (5 : ℚ)

/-- Concrete peak finder for the driver scenario: one peak of value 5 at
sample 0. -/
def c4FindPeaks : FindPeaks := fun _ _ _ => [(5, 0)]

def c4Stats : Stats := ⟨"A", "Z", 1/86400, 0⟩

def c4Stream : List Trace := [⟨c4Stats, [3]⟩]

def c4Templates : List (List Trace) := [[⟨c4Stats, [2]⟩]]

lemma c4_align : alignChannel [3] 0 c4Stats.sampling_rate = [3] := by
  simp [alignChannel, pyRound_zero]

lemma c4_tld : _template_loop_dev c4Kernel [⟨c4Stats, [2]⟩] ⟨c4Stats, [3]⟩ [0] =
    [some 5] := by
  rw [tld_eq_foldl]
  have h1 : List.range ([⟨c4Stats, [2]⟩] : List Trace).length = [0] := rfl
  rw [h1, List.foldl_cons, List.foldl_nil]
  rw [if_pos ⟨rfl, rfl⟩]
  show (c4Kernel Dtype.float32 (alignChannel [3] 0 c4Stats.sampling_rate)
    Dtype.float32 [2]).map some = _
  rw [c4_align]
  rfl

lemma c4_cld : _channel_loop_dev c4Kernel c4Templates [[0]] c4Stream =
    ([[5]], [1]) := by
  show List.foldl (channelStep c4Kernel c4Templates [[0]]) ([[0]], [0])
    c4Stream = _
  rw [show c4Stream = [⟨c4Stats, [3]⟩] from rfl, List.foldl_cons,
    List.foldl_nil]
  unfold channelStep
  rw [show List.range (List.length c4Templates) = [0] from rfl]
  simp only [List.map_cons, List.map_nil]
  rw [show c4Templates.getD 0 [] = [⟨c4Stats, [2]⟩] from rfl]
  rw [show ([[(0:ℚ)]].getD 0 []) = [(0:ℚ)] from rfl, c4_tld]
  simp only [List.getD_cons_zero]
  norm_num

lemma c4_eval : match_filter c4Kernel c4FindPeaks ["t1"] c4Templates [[0]]
    c4Stream 2 "absolute" 6 false =
    Except.ok [⟨"t1", 0, 1, none, 5, 2, "corr"⟩] := by
  unfold match_filter
  split
  case isTrue h =>
    exfalso
    apply h
    show c4Stream.all _ = true
    simp only [c4Stream, c4Stats, List.all_cons, List.all_nil, Bool.and_true,
      decide_eq_true_eq]
    show (1 / 86400 : ℚ) * 86400 = ((1 : ℕ) : ℚ)
    norm_num
  case isFalse h =>
    simp only [c4_cld]
    rw [if_neg (by decide)]
    show Except.ok [(⟨"t1", (0 : ℚ) + ((0 : ℕ) : ℚ) / (1 / 86400 : ℚ),
      1, none, 5, 2, "corr"⟩ : DETECTION)] = _
    norm_num

/-- C4 counterexample.  A complete concrete run (daylong single-channel
stream, matching one-channel template, contract kernel, one accepted peak):
the `DETECTION` constructed carries the template name, detect time, channel
count, peak value, threshold and the tag `"corr"`, but its `chans` field is
`None` — no list of channel names is stored, contradicting the claim that
the record contains one. -/
theorem C4_counterexample :
    match_filter c4Kernel c4FindPeaks ["t1"] c4Templates [[0]] c4Stream 2
      "absolute" 6 false =
      Except.ok [⟨"t1", 0, 1, none, 5, 2, "corr"⟩]
    ∧ (DETECTION.chans ⟨"t1", 0, 1, none, 5, 2, "corr"⟩).isNone = true :=
  ⟨c4_eval, rfl⟩

/-- C4 witness: the field theorem applied to the concrete run; the single
returned detection has tag `"corr"` and an empty `chans` field. -/
theorem C4_witness :
    (⟨"t1", 0, 1, none, 5, 2, "corr"⟩ : DETECTION).typeofdet = "corr"
    ∧ (⟨"t1", 0, 1, none, 5, 2, "corr"⟩ : DETECTION).chans = none := by
  have h := C4_detection_fields c4Kernel c4FindPeaks ["t1"] c4Templates [[0]]
    c4Stream 2 "absolute" 6 false _ c4_eval ⟨"t1", 0, 1, none, 5, 2, "corr"⟩
    (List.mem_singleton.mpr rfl)
  rcases h with ⟨i, rt, pk, _, _, _, _, _, _, _, _, _, h10, h11⟩
  exact ⟨h10, h11⟩

lemma HeapExt_refl (h : Heap) : HeapExt h h := ⟨le_rfl, fun _ _ => rfl⟩

lemma HeapExt_trans {h1 h2 h3 : Heap} (a : HeapExt h1 h2) (b : HeapExt h2 h3) :
    HeapExt h1 h3 :=
  ⟨le_trans a.1 b.1, fun i hi => (b.2 i (lt_of_lt_of_le hi a.1)).trans (a.2 i hi)⟩

lemma HeapExt_alloc (h : Heap) (v : List ℚ) : HeapExt h (allocA h v).1 := by
  refine ⟨by simp [allocA], fun i hi => ?_⟩
  show (h ++ [v]).getD i [] = h.getD i []
  rw [List.getD_eq_getElem _ _ (by simp; omega), List.getD_eq_getElem _ _ hi,
    List.getElem_append_left hi]

lemma HeapExt_write {h h2 : Heap} (i : ℕ) (v : List ℚ)
    (hi : h.length ≤ i) (hext : HeapExt h h2) : HeapExt h (writeA h2 i v) := by
  refine ⟨by rw [writeA, List.length_set]; exact hext.1, fun j hj => ?_⟩
  have hjl : j < h2.length := lt_of_lt_of_le hj hext.1
  have h1 : readA (writeA h2 i v) j = readA h2 j := by
    show (h2.set i v).getD j [] = h2.getD j []
    rw [List.getD_eq_getElem _ _ (by rw [List.length_set]; exact hjl),
      List.getD_eq_getElem _ _ hjl]
    exact List.getElem_set_ne (show i ≠ j by omega) _
  rw [h1]
  exact hext.2 j hj

lemma alignChannelH_ext (h : Heap) (chanId : ArrId) (delay sr : ℚ) :
    HeapExt h (alignChannelH h chanId delay sr).1 :=
  HeapExt_trans (HeapExt_alloc _ _) (HeapExt_alloc _ _)

lemma normxcorr2H_ext (kernel : Kernel) (h : Heap) (t img : List ℚ) :
    HeapExt h (normxcorr2H kernel h t img).1 :=
  HeapExt_trans (HeapExt_alloc _ _)
    (HeapExt_trans (HeapExt_alloc _ _) (HeapExt_alloc _ _))

lemma foldl_ext_gen {σ β : Type} (f : σ → β → σ) (hp : σ → Heap)
    (hstep : ∀ acc b, HeapExt (hp acc) (hp (f acc b))) :
    ∀ (l : List β) (acc : σ), HeapExt (hp acc) (hp (l.foldl f acc)) := by
  intro l
  induction l with
  | nil => intro acc; exact HeapExt_refl _
  | cons x xs ih =>
    intro acc
    exact HeapExt_trans (hstep acc x) (ih (f acc x))

lemma template_loop_heap_ext (kernel : Kernel)
    (template : List (Stats × ArrId)) (chanStats : Stats) (chanId : ArrId)
    (delays : List ℚ) (h : Heap) :
    HeapExt h (template_loop_heap kernel template chanStats chanId delays h).1 := by
  simp only [template_loop_heap]
  exact foldl_ext_gen _ Prod.fst
    (fun acc b => by
      split
      · exact HeapExt_trans (alignChannelH_ext _ _ _ _) (normxcorr2H_ext _ _ _ _)
      · exact HeapExt_refl _)
    (List.range template.length)
    (h, List.replicate ((readA h chanId).length + 1 -
      (readA h (template.headI).2).length) none)

lemma channel_rows_heap_ext (kernel : Kernel)
    (templates : List (List (Stats × ArrId))) (delays : List (List ℚ))
    (ch : Stats × ArrId) (h0 : Heap) (rows0 : List (List (Option ℚ))) :
    HeapExt h0 ((List.range templates.length).foldl (fun racc i =>
      ((template_loop_heap kernel (templates.getD i []) ch.1 ch.2
        (delays.getD i []) racc.1).1,
       racc.2 ++ [(template_loop_heap kernel (templates.getD i []) ch.1 ch.2
        (delays.getD i []) racc.1).2])) (h0, rows0)).1 := by
  refine foldl_ext_gen _ Prod.fst ?_ (List.range templates.length) (h0, rows0)
  intro racc i
  exact template_loop_heap_ext kernel (templates.getD i []) ch.1 ch.2
    (delays.getD i []) racc.1

lemma channel_loop_heap_ext (kernel : Kernel)
    (templates : List (List (Stats × ArrId))) (delays : List (List ℚ))
    (stream : List (Stats × ArrId)) (h : Heap) :
    HeapExt h (channel_loop_heap kernel templates delays stream h).1 := by
  simp only [channel_loop_heap]
  refine foldl_ext_gen _ Prod.fst ?_ stream
    (h, List.replicate templates.length
      (List.replicate ((readA h (stream.headI).2).length + 1 -
        (readA h ((templates.headI).headI).2).length) (0:ℚ)),
     List.replicate templates.length (0:ℕ))
  intro acc ch
  exact channel_rows_heap_ext kernel templates delays ch acc.1 []

lemma match_filter_heap_ext (kernel : Kernel) (decim : List ℚ → List ℚ)
    (templates : List (List (Stats × ArrId))) (delays : List (List ℚ))
    (stream : List (Stats × ArrId)) (plotvar : Bool) (h : Heap) :
    HeapExt h (match_filter_heap kernel decim templates delays stream plotvar h) := by
  simp only [match_filter_heap]
  split
  · exact HeapExt_refl _
  · split
    · exact channel_loop_heap_ext _ _ _ _ _
    · refine HeapExt_trans (channel_loop_heap_ext kernel templates delays stream h) ?_
      exact foldl_ext_gen _ id
        (fun acc b => by
          split
          · exact HeapExt_write _ _ le_rfl (HeapExt_alloc _ _)
          · exact HeapExt_refl _)
        (List.range (channel_loop_heap kernel templates delays stream h).2.1.length)
        (channel_loop_heap kernel templates delays stream h).1

/-- C10.  In the heap model of the match-filter pipeline — numpy buffers
addressed by allocation order, with the template and stream sample buffers
and the per-template delay-list buffers living in the initial heap — every
buffer existing before a call to `_template_loop_dev`, `_channel_loop_dev`
or `match_filter` reads back unchanged afterwards: alignment and correlation
only allocate fresh pads, `np.append` copies, `astype` copies and kernel
results, and the plotting branch writes only to its freshly allocated
`deepcopy` of `stream[0]`. -/
theorem C10_no_input_mutation :
    (∀ (kernel : Kernel) (template : List (Stats × ArrId))
        (chanStats : Stats) (chanId : ArrId) (delays : List ℚ) (h : Heap)
        (i : ℕ), i < h.length →
        readA (template_loop_heap kernel template chanStats chanId delays h).1
          i = readA h i)
    ∧ (∀ (kernel : Kernel) (templates : List (List (Stats × ArrId)))
        (delays : List (List ℚ)) (stream : List (Stats × ArrId)) (h : Heap)
        (i : ℕ), i < h.length →
        readA (channel_loop_heap kernel templates delays stream h).1 i =
          readA h i)
    ∧ ∀ (kernel : Kernel) (decim : List ℚ → List ℚ)
        (templates : List (List (Stats × ArrId))) (delays : List (List ℚ))
        (stream : List (Stats × ArrId)) (plotvar : Bool) (h : Heap)
        (i : ℕ), i < h.length →
        readA (match_filter_heap kernel decim templates delays stream plotvar
          h) i = readA h i :=
  ⟨fun kernel template chanStats chanId delays h i hi =>
    (template_loop_heap_ext kernel template chanStats chanId delays h).2 i hi,
   fun kernel templates delays stream h i hi =>
    (channel_loop_heap_ext kernel templates delays stream h).2 i hi,
   fun kernel decim templates delays stream plotvar h i hi =>
    (match_filter_heap_ext kernel decim templates delays stream plotvar h).2
      i hi⟩

/-- C10 witness: a concrete one-channel, one-template, plotting-enabled run
over a heap holding the stream buffer at id 0, the template buffer at id 1
and the delay list at id 2: all three input buffers read back unchanged. -/
theorem C10_witness :
    readA (match_filter_heap
      (fun _ img _ tp => List.replicate (img.length + 1 - tp.length) (1:ℚ))
      (fun d => d) [[(⟨"A", "Z", 1, 0⟩, 1)]] [[0]] [(⟨"A", "Z", 1, 0⟩, 0)]
      true [[3, 4], [2], [0]]) 0 = [3, 4]
    ∧ readA (match_filter_heap
      (fun _ img _ tp => List.replicate (img.length + 1 - tp.length) (1:ℚ))
      (fun d => d) [[(⟨"A", "Z", 1, 0⟩, 1)]] [[0]] [(⟨"A", "Z", 1, 0⟩, 0)]
      true [[3, 4], [2], [0]]) 1 = [2]
    ∧ readA (match_filter_heap
      (fun _ img _ tp => List.replicate (img.length + 1 - tp.length) (1:ℚ))
      (fun d => d) [[(⟨"A", "Z", 1, 0⟩, 1)]] [[0]] [(⟨"A", "Z", 1, 0⟩, 0)]
      true [[3, 4], [2], [0]]) 2 = [0] :=
  ⟨(C10_no_input_mutation.2.2 _ _ _ _ _ true _ 0 (by decide)).trans rfl,
   (C10_no_input_mutation.2.2 _ _ _ _ _ true _ 1 (by decide)).trans rfl,
   (C10_no_input_mutation.2.2 _ _ _ _ _ true _ 2 (by decide)).trans rfl⟩
